import Mathlib

/-!
Verification of the churn-pipeline core: a shallow embedding of
`churn_pipeline/features.py`, `churn_pipeline/trainer.py` and
`churn_pipeline/monitoring.py`, with theorems settling the frozen claims
about feature aggregation, dataset splitting and drift detection.

Modelling conventions:
* instants (`ts`, `label_ts`, `registration`) are integers in milliseconds,
  exactly as in the cleaned event log (`clean_event_log` parses the raw
  `ts` column with `unit="ms"`); `pd.Timedelta(days=d)` is `d * 86400000`;
* float quantities are rationals (`ℚ`) wherever the source computes a
  rational function of its inputs, and reals (`ℝ`) where it does not
  (the population standard deviation uses a square root, the PSI uses a
  natural logarithm);
* a float `NaN` outcome is an `Option _` being `none`;
* a pandas column that may be absent or null per row is an `Option` field;
* a raised exception is an `Except.error`.
-/

namespace ChurnPipeline

/-- One cleaned user-activity event (one row of the event log after
`clean_event_log`: `ts` and `registration` are instants in milliseconds,
`sessionId` and `itemInSession` are integers, `userId` is a string). -/
structure Event where
  userId : String
  ts : Int
  page : String
  sessionId : Int
  itemInSession : Int
  level : Option String := none
  gender : Option String := none
  length : Option ℚ := none
  artist : Option String := none
  song : Option String := none
  location : Option String := none
  registration : Option Int := none
deriving DecidableEq, Repr

/-- `FeatureConfig` from `churn_pipeline/config.py` (the fields used by
`build_user_features`). -/
structure FeatureConfig where
  lookback_days : Nat
  min_events_per_user : Nat
  min_sessions_per_user : Nat
  include_gender : Bool
  include_level : Bool
  include_location : Bool
deriving DecidableEq, Repr

/-- One row of the output feature table of `build_user_features`.
Fields whose pandas value can be `NaN`, or whose column is emitted only
under a config flag (or only when a registration instant exists), are
`Option`-valued; `none` stands for `NaN` / an absent column. -/
structure Snapshot where
  userId : String
  label_ts : Int
  churned : Nat
  num_events : Nat
  num_sessions : Nat
  num_songs : Nat
  num_errors : Nat
  num_add_friend : Nat
  num_add_playlist : Nat
  num_roll_advert : Nat
  num_thumb_up : Nat
  num_thumb_down : Nat
  avg_items_per_session : Option ℚ
  std_items_per_session : ℝ
  total_listening_minutes : ℚ
  event_rate_per_hour : ℚ
  distinct_artists : Nat
  distinct_songs : Nat
  avg_session_minutes : ℚ
  median_session_minutes : ℚ
  std_session_minutes : ℝ
  paid_event_ratio : ℚ
  gender_M : Option Nat
  gender_F : Option Nat
  current_level_paid : Option Nat
  num_locations : Option Nat
  account_age_days : Option ℚ
  active_days : ℚ

/-- The churn marker page, `CHURN_EVENT` in `features.py`. -/
def churnEvent : String := "Cancellation Confirmation"

/-- Milliseconds in one day: `pd.Timedelta(days=1)`. -/
def msPerDay : Int := 86400000

/-- First-occurrence deduplication with an accumulator of already-seen
values; structural recursion so that it reduces in the kernel. -/
def dedupFirstAux [DecidableEq α] : List α → List α → List α
  | _, [] => []
  | seen, x :: xs =>
    if x ∈ seen then dedupFirstAux seen xs
    else x :: dedupFirstAux (x :: seen) xs

/-- Distinct values in order of first appearance — the order produced by
`pandas.Series.unique` and the key set of a pandas `groupby`. -/
def dedupKeepFirst [DecidableEq α] (l : List α) : List α := dedupFirstAux [] l

/-- `pandas.Series.nunique` on a list of already-non-null values. -/
def nuniq [DecidableEq α] (l : List α) : Nat := (dedupKeepFirst l).length

/-- Arithmetic mean of a list of rationals (callers guard emptiness; on
`[]` rational division by zero yields `0`, but every use either guards or
wraps the empty case in `none`). -/
def listMean (l : List ℚ) : ℚ := l.sum / l.length

/-- `pandas.Series.median`: midpoint of the sorted values. -/
def medianQ (l : List ℚ) : ℚ :=
  let s := List.insertionSort (· ≤ ·) l
  let n := s.length
  if n = 0 then 0
  else if n % 2 = 1 then s.getD (n / 2) 0
  else (s.getD (n / 2 - 1) 0 + s.getD (n / 2) 0) / 2

/-- Population variance (`ddof=0`). -/
def popVarQ (l : List ℚ) : ℚ := listMean (l.map (fun x => (x - listMean l) ^ 2))

/-- Population standard deviation (`ddof=0`), `Series.std(ddof=0)`. -/
noncomputable def popStdR (l : List ℚ) : ℝ := Real.sqrt (popVarQ l)

/-- Maximum timestamp of a group of events (`Series.max`; groups are
nonempty wherever this is used). -/
def maxTs : List Event → Int
  | [] => 0
  | e :: es => (es.map Event.ts).foldl max e.ts

/-- Minimum timestamp of a group of events (`Series.min`). -/
def minTs : List Event → Int
  | [] => 0
  | e :: es => (es.map Event.ts).foldl min e.ts

/-- Maximum `itemInSession` within a group (`groupby(...)["itemInSession"].max()`). -/
def maxItemInSession : List Event → Int
  | [] => 0
  | e :: es => (es.map Event.itemInSession).foldl max e.itemInSession

/-- Whether an event is the churn marker. -/
def isChurn (e : Event) : Bool := e.page = churnEvent

/-- `churn_mask.any()`: the user has a cancellation-confirmation event. -/
def churnedFlag (u : List Event) : Bool := u.any isChurn

/-- Timestamp of the first cancellation-confirmation event of a
timestamp-sorted group (`user_events.loc[churn_mask, "ts"].iloc[0]`). -/
def firstChurnTs (u : List Event) : Int :=
  match u.find? isChurn with
  | some e => e.ts
  | none => 0

/-- The `cutoff_ts` of `build_user_features`: the first churn instant for a
churned user, otherwise the user's maximal timestamp. -/
def labelTsOf (u : List Event) : Int :=
  if churnedFlag u then firstChurnTs u else maxTs u

/-- The anti-leakage restriction: for a churned user, only events strictly
before the first churn instant (`user_events[user_events["ts"] < cutoff_ts]`);
for a non-churned user the full history. -/
def preChurnEvents (u : List Event) : List Event :=
  if churnedFlag u then u.filter (fun e => e.ts < firstChurnTs u) else u

/-- The working event subset of one user: the anti-leakage restriction,
then — when `lookback_days` is truthy — the lookback window
`ts >= cutoff_ts - Timedelta(days=lookback_days)`. -/
def workingSubset (cfg : FeatureConfig) (u : List Event) : List Event :=
  let u1 := preChurnEvents u
  if cfg.lookback_days ≠ 0 then
    u1.filter (fun e => labelTsOf u - (cfg.lookback_days : Int) * msPerDay ≤ e.ts)
  else u1

/-- Distinct session ids of the working subset, in pandas `groupby` key
order of appearance (the statistics taken over them are order-invariant). -/
def sessionIdsOf (w : List Event) : List Int := dedupKeepFirst (w.map Event.sessionId)

/-- Events of one session within the subset. -/
def sessionEvents (w : List Event) (sid : Int) : List Event :=
  w.filter (fun e => e.sessionId = sid)

/-- Per-session maxima of `itemInSession` (`session_item_counts`). -/
def sessionItemCounts (w : List Event) : List ℚ :=
  (sessionIdsOf w).map (fun sid => ((maxItemInSession (sessionEvents w sid) : Int) : ℚ))

/-- Per-session durations in minutes: `(grouped.max() - grouped.min())`
converted from milliseconds to minutes. -/
def sessionDurations (w : List Event) : List ℚ :=
  (sessionIdsOf w).map
    (fun sid => ((maxTs (sessionEvents w sid) - minTs (sessionEvents w sid) : Int) : ℚ) / 60000)

/-- `_session_stats` of `features.py`: mean, median and population standard
deviation of the per-session durations, with the source's guards (empty
input and single-session input give the `0.0` defaults; the source's
`isnan` re-checks are no-ops here because a mean or median of a nonempty
rational list is rational). -/
noncomputable def _session_stats (w : List Event) : ℚ × ℚ × ℝ :=
  if w = [] then (0, 0, 0)
  else
    let durations := sessionDurations w
    if durations = [] then (0, 0, 0)
    else (listMean durations, medianQ durations,
          if 1 < durations.length then popStdR durations else 0)

/-- `_event_rate` of `features.py`: events per hour over the subset's
timespan, or the raw count when the timespan is not positive. -/
def _event_rate (w : List Event) : ℚ :=
  if w = [] then 0
  else
    let timespan : ℚ := ((maxTs w - minTs w : Int) : ℚ) / 3600000
    if timespan ≤ 0 then (w.length : ℚ) else (w.length : ℚ) / timespan

/-- `_safe_ratio` of `features.py`. -/
def _safe_ratio (numerator denominator : ℚ) : ℚ :=
  if denominator = 0 then 0 else numerator / denominator

/-- Count of the subset's events on a given page. -/
def countPage (w : List Event) (p : String) : Nat :=
  (w.filter (fun e => e.page = p)).length

/-- `user_events["gender"].dropna().unique()[-1]`: the last element of the
distinct non-null genders in order of first appearance. -/
def lastUniqueGender (w : List Event) : Option String :=
  (dedupKeepFirst (w.filterMap Event.gender)).getLast?

/-- `user_events["level"].dropna().iloc[-1]`: the last non-null level
observed in the subset. -/
def lastObservedLevel (w : List Event) : Option String :=
  (w.filterMap Event.level).getLast?

/-- The snapshot dictionary built for one user in the loop body of
`build_user_features`, from the user's working subset `w`, the `cutoff_ts`
and the churn flag. -/
noncomputable def mkSnapshot (cfg : FeatureConfig) (uid : String) (cutoff : Int)
    (churned : Bool) (w : List Event) : Snapshot :=
  let itemCounts := sessionItemCounts w
  let st := _session_stats w
  { userId := uid
    label_ts := cutoff
    churned := if churned then 1 else 0
    num_events := w.length
    num_sessions := nuniq (w.map Event.sessionId)
    num_songs := countPage w "NextSong"
    num_errors := countPage w "Error"
    num_add_friend := countPage w "Add Friend"
    num_add_playlist := countPage w "Add to Playlist"
    num_roll_advert := countPage w "Roll Advert"
    num_thumb_up := countPage w "Thumbs Up"
    num_thumb_down := countPage w "Thumbs Down"
    avg_items_per_session := if itemCounts = [] then none else some (listMean itemCounts)
    std_items_per_session := if 1 < itemCounts.length then popStdR itemCounts else 0
    total_listening_minutes := (w.map (fun e => e.length.getD 0)).sum / 60
    event_rate_per_hour := _event_rate w
    distinct_artists := nuniq (w.filterMap Event.artist)
    distinct_songs := nuniq (w.filterMap Event.song)
    avg_session_minutes := st.1
    median_session_minutes := st.2.1
    std_session_minutes := st.2.2
    paid_event_ratio :=
      _safe_ratio ((w.filter (fun e => e.level = some "paid")).length : ℚ) (w.length : ℚ)
    gender_M :=
      if cfg.include_gender then some (if lastUniqueGender w = some "M" then 1 else 0)
      else none
    gender_F :=
      if cfg.include_gender then some (if lastUniqueGender w = some "F" then 1 else 0)
      else none
    current_level_paid :=
      if cfg.include_level then some (if lastObservedLevel w = some "paid" then 1 else 0)
      else none
    num_locations :=
      if cfg.include_location then some (nuniq (w.filterMap Event.location)) else none
    account_age_days :=
      match (w.filterMap Event.registration).head? with
      | some reg => some (((cutoff - reg).fdiv msPerDay : Int) : ℚ)
      | none => none
    active_days :=
      if w = [] then 0 else (((maxTs w - minTs w).fdiv msPerDay : Int) : ℚ) }

/-- One iteration of the per-user loop of `build_user_features`: apply the
cutoff and lookback restrictions, drop the user when a threshold fails
(`continue`), otherwise produce the snapshot row. -/
noncomputable def processUser (cfg : FeatureConfig) (uid : String) (u : List Event) :
    Option Snapshot :=
  if (workingSubset cfg u).length < cfg.min_events_per_user then none
  else if nuniq ((workingSubset cfg u).map Event.sessionId) < cfg.min_sessions_per_user then
    none
  else some (mkSnapshot cfg uid (labelTsOf u) (churnedFlag u) (workingSubset cfg u))

/-- The distinct user ids of the event log, ascending — the group keys of
`events.groupby("userId")`. -/
def userIds (events : List Event) : List String :=
  List.insertionSort (· ≤ ·) (dedupKeepFirst (events.map Event.userId))

/-- One user's events sorted by timestamp (`user_events.sort_values("ts")`). -/
def userEventsSorted (events : List Event) (uid : String) : List Event :=
  List.insertionSort (fun a b => a.ts ≤ b.ts) (events.filter (fun e => e.userId = uid))

/-- `build_user_features` of `features.py`: the per-user snapshots, output
rows sorted ascending by `label_ts`. -/
noncomputable def buildUserFeatures (events : List Event) (cfg : FeatureConfig) :
    List Snapshot :=
  List.insertionSort (fun a b => a.label_ts ≤ b.label_ts)
    ((userIds events).filterMap (fun uid => processUser cfg uid (userEventsSorted events uid)))

/-- `SplitConfig` from `churn_pipeline/config.py` (the fields read by the
splitting functions of `trainer.py`). -/
structure SplitConfig where
  test_ratio : ℚ
  min_train_users : Nat
  temporal_holdout_days : Nat

/-- Maximal `label_ts` of a feature table (`feature_df["label_ts"].max()`;
tables reaching the splitters are nonempty, `train` raises on an empty
table before splitting). -/
def maxLabelTs : List Snapshot → Int
  | [] => 0
  | r :: rs => (rs.map Snapshot.label_ts).foldl max r.label_ts

/-- Seeded split of one stratum: a deterministic permutation (a rotation by
the seed), then the leading `floor(len * test_ratio)` rows become the test
part and the rest the train part. -/
def splitStratum (rows : List Snapshot) (test_ratio : ℚ) (seed : Nat) :
    List Snapshot × List Snapshot :=
  let r := rows.rotate seed
  let nTest := min (Int.toNat ⌊(rows.length : ℚ) * test_ratio⌋) rows.length
  (r.drop nTest, r.take nTest)

/-- Modelled from the spec: `_stratified_split` of `trainer.py` delegates to
`sklearn.model_selection.train_test_split(features.index, test_size=test_ratio,
random_state=seed, stratify=features["churned"])`, whose code is not part of
this repository. Per the spec it is a "random split by `test_ratio`,
stratified on the `churned` label so both partitions preserve the churn base
rate, using a deterministic seed for reproducibility", and both outputs
together partition the input rows. The model splits each churn stratum
separately with a seed-determined permutation and concatenates the parts. -/
def _stratified_split (rows : List Snapshot) (test_ratio : ℚ) (seed : Nat) :
    List Snapshot × List Snapshot :=
  let s1 := rows.filter (fun r => decide (r.churned = 1))
  let s0 := rows.filter (fun r => !decide (r.churned = 1))
  let p0 := splitStratum s0 test_ratio seed
  let p1 := splitStratum s1 test_ratio seed
  (p0.1 ++ p1.1, p0.2 ++ p1.2)

/-- `_temporal_split` of `trainer.py`: cut at `max(label_ts) - holdout`,
train strictly before the cutoff, test at or after it; fall back to the
stratified split when the train part is too small or the test part empty. -/
def _temporal_split (rows : List Snapshot) (cfg : SplitConfig) (seed : Nat) :
    List Snapshot × List Snapshot :=
  let cutoff := maxLabelTs rows - (cfg.temporal_holdout_days : Int) * msPerDay
  let train := rows.filter (fun r => decide (r.label_ts < cutoff))
  let test := rows.filter (fun r => decide (cutoff ≤ r.label_ts))
  if train.length < cfg.min_train_users ∨ test.length = 0 then
    _stratified_split rows cfg.test_ratio seed
  else (train, test)

/-! Monitoring (`churn_pipeline/monitoring.py`). A numeric pandas Series is
a `List (Option ℚ)`; `dropna` is `List.filterMap id`; a float `NaN` result
is `none`. -/

/-- Sorted deduplication, as `np.unique` (sort, then drop duplicates). -/
def uniqueSorted (l : List ℚ) : List ℚ :=
  dedupKeepFirst (List.insertionSort (· ≤ ·) l)

/-- `np.quantile(a, q)` with the default linear interpolation: with the
values sorted ascending and `h = q * (n - 1)`, interpolate between the
values at positions `floor h` and `floor h + 1`. -/
def quantileQ (l : List ℚ) (q : ℚ) : ℚ :=
  let s := List.insertionSort (· ≤ ·) l
  let n := s.length
  if n = 0 then 0
  else
    let h : ℚ := q * ((n : ℚ) - 1)
    let i : Nat := (⌊h⌋).toNat
    let lo := s.getD i 0
    let hi := s.getD (i + 1) lo
    lo + (h - (i : ℚ)) * (hi - lo)

/-- `np.digitize(x, breaks, right=False)` for ascending `breaks` counts the
break values not exceeding `x`; the source then subtracts one and clips the
result into `[0, len(breaks) - 2]` (natural subtraction models the lower
clip). -/
def binIndex (breaks : List ℚ) (x : ℚ) : Nat :=
  min (breaks.countP (fun b => decide (b ≤ x)) - 1) (breaks.length - 2)

/-- `population_stability_index` of `monitoring.py`: quantile bins of the
expected distribution, per-bin frequency ratios floored at `epsilon`, and
the PSI sum; `none` is the `NaN` returned on an empty side, `some 0` the
degenerate-bins result. -/
noncomputable def population_stability_index (expected actual : List (Option ℚ))
    (buckets : Nat) (epsilon : ℚ) : Option ℝ :=
  let e := expected.filterMap id
  let a := actual.filterMap id
  if e = [] ∨ a = [] then none
  else
    let quantiles := (List.range (buckets + 1)).map (fun i => (i : ℚ) / (buckets : ℚ))
    let breaks := uniqueSorted (quantiles.map (fun q => quantileQ e q))
    if breaks.length < 2 then some 0
    else
      let ebins := e.map (binIndex breaks)
      let abins := a.map (binIndex breaks)
      some (((List.range (breaks.length - 1)).map (fun b =>
        let er : ℚ := max ((ebins.count b : ℚ) / (e.length : ℚ)) epsilon
        let ar : ℚ := max ((abins.count b : ℚ) / (a.length : ℚ)) epsilon
        ((ar - er : ℚ) : ℝ) * Real.log ((ar : ℝ) / (er : ℝ)))).sum)

/-- Largest element of a list of rationals (`np.max`; callers guard
emptiness). -/
def maxQ : List ℚ → ℚ
  | [] => 0
  | x :: xs => xs.foldl max x

/-- `kolmogorov_smirnov_statistic` of `monitoring.py`: the maximal absolute
difference of the two empirical CDFs over the union of observed values;
`searchsorted(side="right")` on a sorted list counts the elements `≤ v`. -/
def kolmogorov_smirnov_statistic (expected actual : List (Option ℚ)) : Option ℚ :=
  let e := expected.filterMap id
  let a := actual.filterMap id
  if e = [] ∨ a = [] then none
  else
    let allValues := uniqueSorted (e ++ a)
    some (maxQ (allValues.map (fun v =>
      |((e.countP (fun x => decide (x ≤ v)) : ℚ) / (e.length : ℚ)) -
        ((a.countP (fun x => decide (x ≤ v)) : ℚ) / (a.length : ℚ))|)))

/-- A column of a feature table as the drift report sees it: its name,
whether pandas reports a numeric dtype, and its values. -/
structure Column where
  name : String
  numeric : Bool
  values : List (Option ℚ)

/-- One record of the drift report: a feature name with its PSI and KS
statistics (`none` is the `NaN` sentinel). -/
structure DriftRecord where
  feature : String
  psi : Option ℝ
  ks : Option ℚ

/-- `DriftReport` of `monitoring.py`: the per-feature metrics table and the
two aggregate flags. -/
structure DriftReport where
  feature_metrics : List DriftRecord
  psi_flag : Bool
  ks_flag : Bool

/-- Column lookup by name (`df[col]`; `none` models a missing column). -/
def colLookup (t : List Column) (c : String) : Option Column :=
  t.find? (fun col => col.name = c)

/-- Whether a possibly-`NaN` PSI value exceeds the threshold (`NaN` never
does: the source checks `not np.isnan(psi) and psi > psi_threshold`). -/
noncomputable def psiExceeds (p : Option ℝ) (th : ℝ) : Bool :=
  match p with
  | none => false
  | some v => @decide (th < v) (Classical.propDecidable _)

/-- Whether a possibly-`NaN` KS value exceeds the threshold. -/
def ksExceeds (k : Option ℚ) (th : ℚ) : Bool :=
  match k with
  | none => false
  | some v => decide (th < v)

/-- The column loop of `compute_data_drift_report`: a column missing from
the current table, or non-numeric in the baseline, is skipped; looking a
selected column up in a baseline that lacks it raises `KeyError`; every
processed column contributes a record and feeds the aggregate flags. -/
noncomputable def driftLoop (baseline current : List Column) (psi_th : ℝ) (ks_th : ℚ) :
    List String → Except String (List DriftRecord × Bool × Bool)
  | [] => .ok ([], false, false)
  | c :: rest =>
    match colLookup current c with
    | none => driftLoop baseline current psi_th ks_th rest
    | some cc =>
      match colLookup baseline c with
      | none => .error ("KeyError: " ++ c)
      | some bc =>
        if bc.numeric then
          match driftLoop baseline current psi_th ks_th rest with
          | .error m => .error m
          | .ok (recs, pf, kf) =>
            let p := population_stability_index bc.values cc.values 10 (1 / 1000000)
            let k := kolmogorov_smirnov_statistic bc.values cc.values
            .ok (⟨c, p, k⟩ :: recs, pf || psiExceeds p psi_th, kf || ksExceeds k ks_th)
        else driftLoop baseline current psi_th ks_th rest

/-- Descending-PSI row order of the report (`sort_values("psi",
ascending=False)`; pandas places `NaN` last). -/
def psiDescOrder (a b : DriftRecord) : Prop :=
  match a.psi, b.psi with
  | none, none => True
  | none, some _ => False
  | some _, none => True
  | some x, some y => y ≤ x

/-- Report rows sorted by descending PSI. -/
noncomputable def sortByPsiDesc (l : List DriftRecord) : List DriftRecord :=
  @List.insertionSort _ psiDescOrder (fun _ _ => Classical.propDecidable _) l

/-- `compute_data_drift_report` of `monitoring.py`. With `feature_columns`
omitted the numeric baseline columns are selected. When no per-column
record is produced, `pd.DataFrame([]).sort_values("psi")` raises `KeyError`
(there is no `psi` column to sort by); that raise is the `.error` case. -/
noncomputable def compute_data_drift_report (baseline current : List Column)
    (feature_columns : Option (List String)) (psi_th : ℝ) (ks_th : ℚ) :
    Except String DriftReport :=
  let cols :=
    match feature_columns with
    | some cs => cs
    | none => (baseline.filter Column.numeric).map Column.name
  match driftLoop baseline current psi_th ks_th cols with
  | .error m => .error m
  | .ok (recs, pf, kf) =>
    if recs.isEmpty then .error "KeyError: psi"
    else .ok ⟨sortByPsiDesc recs, pf, kf⟩

/-- `performance_drift` of `monitoring.py`: per shared metric the relative
delta `(current - baseline)/|baseline|`, with `none` as the `NaN` sentinel
for a zero baseline, paired with the `needs_retrain` decision (in the
source the decision is stored under the `"needs_retrain"` key of the same
dict; a `NaN` delta never satisfies `value < -abs(threshold)`, matching the
`none => false` branch). -/
def performance_drift (baseline current : List (String × ℚ))
    (degrade_threshold : ℚ) : List (String × Option ℚ) × Bool :=
  let deltas := baseline.filterMap (fun p =>
    match current.lookup p.1 with
    | none => none
    | some c =>
      some (p.1, if p.2 = (0 : ℚ) then none else some ((c - p.2) / |p.2|)))
  (deltas, deltas.any (fun d =>
    match d.2 with
    | none => false
    | some v => decide (v < -|degrade_threshold|)))

/-! Concrete inputs used by scenarios, witnesses and counterexamples. -/

/-- Scenario event: user `"u1"`, NextSong at `t = 0`. -/
def e3a : Event := { userId := "u1", ts := 0, page := "NextSong", sessionId := 1, itemInSession := 0 }

/-- Scenario event: user `"u1"`, NextSong at `t = 600000` (ten minutes later). -/
def e3b : Event := { userId := "u1", ts := 600000, page := "NextSong", sessionId := 1, itemInSession := 1 }

/-- Scenario event: user `"u1"`, Cancellation Confirmation at `t = 1200000`. -/
def e3c : Event := { userId := "u1", ts := 1200000, page := churnEvent, sessionId := 1, itemInSession := 2 }

/-- The three-event scenario log of the spec's feature-builder scenario. -/
def ev3 : List Event := [e3a, e3b, e3c]

/-- A permissive configuration for the scenario log (no lookback,
`min_events_per_user = 1`, `min_sessions_per_user = 1`). -/
def cfg3 : FeatureConfig :=
  { lookback_days := 0, min_events_per_user := 1, min_sessions_per_user := 1,
    include_gender := true, include_level := true, include_location := false }

/-- A default row, so that `headI` can name the single row of a computed
table. -/
noncomputable instance : Inhabited Snapshot :=
  ⟨{ userId := "", label_ts := 0, churned := 0, num_events := 0, num_sessions := 0,
     num_songs := 0, num_errors := 0, num_add_friend := 0, num_add_playlist := 0,
     num_roll_advert := 0, num_thumb_up := 0, num_thumb_down := 0,
     avg_items_per_session := none, std_items_per_session := 0,
     total_listening_minutes := 0, event_rate_per_hour := 0, distinct_artists := 0,
     distinct_songs := 0, avg_session_minutes := 0, median_session_minutes := 0,
     std_session_minutes := 0, paid_event_ratio := 0, gender_M := none,
     gender_F := none, current_level_paid := none, num_locations := none,
     account_age_days := none, active_days := 0 }⟩

/-! Helper lemmas about the feature builder. -/

/-- A row is in the output table exactly when some grouped user produces it. -/
lemma mem_build {evs : List Event} {cfg : FeatureConfig} {snap : Snapshot} :
    snap ∈ buildUserFeatures evs cfg ↔
      ∃ uid, uid ∈ userIds evs ∧
        processUser cfg uid (userEventsSorted evs uid) = some snap := by
  unfold buildUserFeatures
  rw [List.mem_insertionSort, List.mem_filterMap]

/-- Inverting a successful per-user computation: the row is the snapshot of
the working subset and both inclusion thresholds were met. -/
lemma processUser_eq_some {cfg : FeatureConfig} {uid : String} {u : List Event}
    {snap : Snapshot} (h : processUser cfg uid u = some snap) :
    snap = mkSnapshot cfg uid (labelTsOf u) (churnedFlag u) (workingSubset cfg u) ∧
    ¬((workingSubset cfg u).length < cfg.min_events_per_user) ∧
    ¬(nuniq ((workingSubset cfg u).map Event.sessionId) < cfg.min_sessions_per_user) := by
  unfold processUser at h
  split_ifs at h with h1 h2
  exact ⟨(Option.some.inj h).symm, h1, h2⟩

/-- The working subset refines the anti-leakage restriction. -/
lemma workingSubset_subset_preChurn (cfg : FeatureConfig) (u : List Event) :
    ∀ e ∈ workingSubset cfg u, e ∈ preChurnEvents u := by
  intro e he
  unfold workingSubset at he
  split_ifs at he
  · exact List.mem_of_mem_filter he
  · exact he

/-- C1. No-leakage: every row of `build_user_features` marked churned has
`label_ts` equal to the timestamp of the user's first cancellation
confirmation, and every event of the user's working subset — the events
that entered the non-label feature computation, for any configuration,
lookback window included — has a timestamp strictly below that `label_ts`. -/
theorem churned_rows_no_leakage (evs : List Event) (cfg : FeatureConfig)
    (snap : Snapshot) (hmem : snap ∈ buildUserFeatures evs cfg)
    (hch : snap.churned = 1) :
    snap.label_ts = firstChurnTs (userEventsSorted evs snap.userId) ∧
    ∀ e ∈ workingSubset cfg (userEventsSorted evs snap.userId),
      e.ts < snap.label_ts := by
  obtain ⟨uid, -, hp⟩ := mem_build.1 hmem
  obtain ⟨hsnap, -, -⟩ := processUser_eq_some hp
  subst hsnap
  have huid :
      (mkSnapshot cfg uid (labelTsOf (userEventsSorted evs uid))
        (churnedFlag (userEventsSorted evs uid))
        (workingSubset cfg (userEventsSorted evs uid))).userId = uid := rfl
  rw [huid]
  set u := userEventsSorted evs uid with hu
  have hchflag : churnedFlag u = true := by
    cases hb : churnedFlag u with
    | true => rfl
    | false =>
      have h0 : (mkSnapshot cfg uid (labelTsOf u) (churnedFlag u)
          (workingSubset cfg u)).churned = 0 := by
        simp [mkSnapshot, hb]
      rw [hch] at h0
      exact absurd h0 one_ne_zero
  have hlab : (mkSnapshot cfg uid (labelTsOf u) (churnedFlag u)
      (workingSubset cfg u)).label_ts = labelTsOf u := rfl
  rw [hlab]
  have hlabel : labelTsOf u = firstChurnTs u := by
    unfold labelTsOf
    rw [hchflag]
    rfl
  refine ⟨hlabel, ?_⟩
  intro e he
  have he' : e ∈ preChurnEvents u := workingSubset_subset_preChurn cfg u e he
  unfold preChurnEvents at he'
  rw [hchflag] at he'
  simp only [if_true] at he'
  have := List.mem_filter.1 he'
  rw [hlabel]
  simpa using this.2

/-- C1 witness: in the three-event scenario the single output row is
churned, and the first working-subset event's timestamp is strictly below
the row's `label_ts`. -/
theorem churned_rows_no_leakage_witness :
    e3a.ts < ((buildUserFeatures ev3 cfg3).headI).label_ts := by
  have hbuild : buildUserFeatures ev3 cfg3 = [(buildUserFeatures ev3 cfg3).headI] := rfl
  refine (churned_rows_no_leakage ev3 cfg3 ((buildUserFeatures ev3 cfg3).headI)
    ?_ (by rfl)).2 e3a ?_
  · rw [hbuild]
    exact List.mem_singleton_self _
  · decide

/-- C2. Threshold filtering: a user whose working subset has fewer events
than `min_events_per_user`, or fewer distinct session ids than
`min_sessions_per_user`, contributes no row to the output. -/
theorem below_threshold_no_row (evs : List Event) (cfg : FeatureConfig) (uid : String)
    (h : (workingSubset cfg (userEventsSorted evs uid)).length < cfg.min_events_per_user ∨
      nuniq ((workingSubset cfg (userEventsSorted evs uid)).map Event.sessionId) <
        cfg.min_sessions_per_user) :
    ¬∃ snap ∈ buildUserFeatures evs cfg, snap.userId = uid := by
  rintro ⟨snap, hmem, huid⟩
  obtain ⟨uid', -, hp⟩ := mem_build.1 hmem
  obtain ⟨hsnap, h1, h2⟩ := processUser_eq_some hp
  have : snap.userId = uid' := by rw [hsnap]; rfl
  rw [this] at huid
  subst huid
  rcases h with h | h
  · exact h1 h
  · exact h2 h

/-- One-event log for the threshold witness: a single NextSong by `"u2"`. -/
def evC2 : List Event :=
  [{ userId := "u2", ts := 0, page := "NextSong", sessionId := 5, itemInSession := 0 }]

/-- A configuration demanding at least two events per user. -/
def cfgC2 : FeatureConfig :=
  { lookback_days := 0, min_events_per_user := 2, min_sessions_per_user := 1,
    include_gender := true, include_level := true, include_location := false }

/-- C2 witness: the single-event user `"u2"` is dropped when two events are
required. -/
theorem below_threshold_no_row_witness :
    ¬∃ snap ∈ buildUserFeatures evC2 cfgC2, snap.userId = "u2" :=
  below_threshold_no_row evC2 cfgC2 "u2" (Or.inl (by decide))

/-- C3. Scenario: with the three-event log of `"u1"` (two NextSong events,
then a cancellation confirmation at `t = 1200000` ms, all in one session),
`min_events_per_user = 1`, any `min_sessions_per_user ≤ 1`, any
`lookback_days` (zero or positive) and any flag settings, the output is a
single row for `"u1"` with `churned = 1`, `label_ts = 1200000` and
`num_events = 2` — the confirmation event itself excluded by the cutoff. -/
theorem scenario_single_churned_user (d ms : Nat) (g l lo : Bool) (hms : ms ≤ 1) :
    (buildUserFeatures ev3
        { lookback_days := d, min_events_per_user := 1, min_sessions_per_user := ms,
          include_gender := g, include_level := l, include_location := lo }).map
      (fun s => (s.userId, s.churned, s.label_ts, s.num_events)) =
      [("u1", 1, 1200000, 2)] := by
  have hpre : preChurnEvents ev3 = [e3a, e3b] := by decide
  have hlab : labelTsOf ev3 = 1200000 := by decide
  have hcf : churnedFlag ev3 = true := by decide
  have hw : workingSubset
      ⟨d, 1, ms, g, l, lo⟩ ev3 = [e3a, e3b] := by
    unfold workingSubset
    rw [hpre, hlab]
    by_cases hd : (FeatureConfig.lookback_days ⟨d, 1, ms, g, l, lo⟩) ≠ 0
    · rw [if_pos hd]
      apply List.filter_eq_self.mpr
      intro e he
      have hts : (0 : Int) ≤ e.ts := by
        rcases List.mem_cons.1 he with rfl | he2
        · decide
        · rcases List.mem_cons.1 he2 with rfl | h3
          · decide
          · exact absurd h3 (List.not_mem_nil e)
      apply decide_eq_true
      have hl : (1 : Int) ≤ ((FeatureConfig.lookback_days ⟨d, 1, ms, g, l, lo⟩ : Nat) : Int) := by
        omega
      have hbig : (86400000 : Int) ≤
          ((FeatureConfig.lookback_days ⟨d, 1, ms, g, l, lo⟩ : Nat) : Int) * 86400000 :=
        le_mul_of_one_le_left (by norm_num) hl
      show (1200000 : Int) - _ * msPerDay ≤ e.ts
      unfold msPerDay
      linarith
    · rw [if_neg hd]
  have hproc : processUser ⟨d, 1, ms, g, l, lo⟩ "u1" ev3 =
      some (mkSnapshot ⟨d, 1, ms, g, l, lo⟩ "u1" 1200000 true [e3a, e3b]) := by
    unfold processUser
    rw [hw, hlab, hcf]
    have h1 : ¬((([e3a, e3b] : List Event)).length <
        (⟨d, 1, ms, g, l, lo⟩ : FeatureConfig).min_events_per_user) := by
      show ¬(2 < 1)
      decide
    have h2 : ¬(nuniq (([e3a, e3b] : List Event).map Event.sessionId) <
        (⟨d, 1, ms, g, l, lo⟩ : FeatureConfig).min_sessions_per_user) := by
      show ¬(1 < ms)
      omega
    rw [if_neg h1, if_neg h2]
  have hids : userIds ev3 = ["u1"] := by decide
  have hsort : userEventsSorted ev3 "u1" = ev3 := by decide
  unfold buildUserFeatures
  rw [hids]
  simp only [hsort, hproc, List.filterMap_cons, List.filterMap_nil]
  simp only [List.insertionSort, List.orderedInsert, List.map_cons, List.map_nil]
  simp only [mkSnapshot]
  norm_num

/-- C3 witness: the scenario at `lookback_days = 0`,
`min_sessions_per_user = 1` and default flags. -/
theorem scenario_single_churned_user_witness :
    (buildUserFeatures ev3
        { lookback_days := 0, min_events_per_user := 1, min_sessions_per_user := 1,
          include_gender := true, include_level := true, include_location := false }).map
      (fun s => (s.userId, s.churned, s.label_ts, s.num_events)) =
      [("u1", 1, 1200000, 2)] :=
  scenario_single_churned_user 0 1 true true false (by decide)

/-- Inverting output membership: the row comes from some grouped user, is
that user's snapshot, and met both thresholds. -/
lemma mem_build_inv {evs : List Event} {cfg : FeatureConfig} {snap : Snapshot}
    (hmem : snap ∈ buildUserFeatures evs cfg) :
    ∃ uid, uid ∈ userIds evs ∧ snap.userId = uid ∧
      snap = mkSnapshot cfg uid (labelTsOf (userEventsSorted evs uid))
        (churnedFlag (userEventsSorted evs uid))
        (workingSubset cfg (userEventsSorted evs uid)) ∧
      ¬((workingSubset cfg (userEventsSorted evs uid)).length < cfg.min_events_per_user) ∧
      ¬(nuniq ((workingSubset cfg (userEventsSorted evs uid)).map Event.sessionId) <
          cfg.min_sessions_per_user) := by
  obtain ⟨uid, hu, hp⟩ := mem_build.1 hmem
  obtain ⟨hsnap, h1, h2⟩ := processUser_eq_some hp
  exact ⟨uid, hu, by rw [hsnap]; rfl, hsnap, h1, h2⟩

/-- First-occurrence deduplication is empty only for the empty list. -/
lemma dedupKeepFirst_nil_iff [DecidableEq α] (l : List α) :
    dedupKeepFirst l = [] ↔ l = [] := by
  cases l with
  | nil => simp [dedupKeepFirst, dedupFirstAux]
  | cons x xs => simp [dedupKeepFirst, dedupFirstAux]

/-- The per-session item maxima are empty only for an empty subset. -/
lemma sessionItemCounts_nil_iff (w : List Event) :
    sessionItemCounts w = [] ↔ w = [] := by
  unfold sessionItemCounts sessionIdsOf
  rw [List.map_eq_nil_iff, dedupKeepFirst_nil_iff, List.map_eq_nil_iff]

/-- The one-event log whose single event is a cancellation confirmation:
its working subset is empty. -/
def ev4 : List Event :=
  [{ userId := "u1", ts := 1200000, page := churnEvent, sessionId := 1, itemInSession := 0 }]

/-- A configuration with both inclusion thresholds zero. -/
def cfg4 : FeatureConfig :=
  { lookback_days := 0, min_events_per_user := 0, min_sessions_per_user := 0,
    include_gender := true, include_level := true, include_location := false }

/-- C4 counterexample: with both thresholds zero, the churned user whose
working subset is empty still gets a row, but its `avg_items_per_session`
is the `NaN` of `session_item_counts.mean()` over an empty group (`none`),
contradicting the claim that no feature value in any output row is `NaN`. -/
theorem nan_avg_items_counterexample :
    (buildUserFeatures ev4 cfg4).map (fun s => s.avg_items_per_session) = [none] := by
  rfl

/-- C4 amended: with both thresholds zero a user with an empty working
subset still yields a row; in every output row `avg_items_per_session` is
`NaN` exactly when the working subset is empty (its mean is taken without
an emptiness guard), while the guarded statistics — session-duration mean,
median and population standard deviation, event rate, paid-event ratio,
active days — take their `0.0` defaults on an empty subset. -/
theorem empty_subset_row_defaults :
    (∀ (evs : List Event) (cfg : FeatureConfig) (uid : String),
      cfg.min_events_per_user = 0 → cfg.min_sessions_per_user = 0 →
      uid ∈ userIds evs →
      ∃ snap ∈ buildUserFeatures evs cfg, snap.userId = uid) ∧
    (∀ (evs : List Event) (cfg : FeatureConfig) (snap : Snapshot),
      snap ∈ buildUserFeatures evs cfg →
      ((snap.avg_items_per_session = none ↔
          workingSubset cfg (userEventsSorted evs snap.userId) = []) ∧
        (workingSubset cfg (userEventsSorted evs snap.userId) = [] →
          snap.avg_session_minutes = 0 ∧ snap.median_session_minutes = 0 ∧
          snap.std_session_minutes = 0 ∧
          snap.event_rate_per_hour = 0 ∧ snap.paid_event_ratio = 0 ∧
          snap.active_days = 0))) := by
  constructor
  · intro evs cfg uid h0 h0' hu
    refine ⟨mkSnapshot cfg uid (labelTsOf (userEventsSorted evs uid))
      (churnedFlag (userEventsSorted evs uid))
      (workingSubset cfg (userEventsSorted evs uid)), ?_, rfl⟩
    apply mem_build.2
    refine ⟨uid, hu, ?_⟩
    unfold processUser
    rw [if_neg (by rw [h0]; exact Nat.not_lt_zero _),
      if_neg (by rw [h0']; exact Nat.not_lt_zero _)]
  · intro evs cfg snap hmem
    obtain ⟨uid, -, huid, hsnap, -, -⟩ := mem_build_inv hmem
    rw [huid, hsnap]
    set w := workingSubset cfg (userEventsSorted evs uid) with hwdef
    constructor
    · show (if sessionItemCounts w = [] then none
        else some (listMean (sessionItemCounts w))) = none ↔ w = []
      split_ifs with hic
      · simp [(sessionItemCounts_nil_iff w).1 hic]
      · simp only [reduceCtorEq, false_iff]
        intro hwe
        exact hic (by rw [hwe]; rfl)
    · intro hwe
      rw [hwe]
      refine ⟨?_, ?_, ?_, ?_, ?_, ?_⟩ <;>
        simp [mkSnapshot, _session_stats, _event_rate, _safe_ratio]

/-- C4 amended witness: the empty-subset churned user of the
counterexample log indeed yields a row whose `avg_items_per_session` is the
`NaN` sentinel. -/
theorem empty_subset_row_defaults_witness :
    ((buildUserFeatures ev4 cfg4).headI).avg_items_per_session = none := by
  have hmem : (buildUserFeatures ev4 cfg4).headI ∈ buildUserFeatures ev4 cfg4 := by
    rw [show buildUserFeatures ev4 cfg4 = [(buildUserFeatures ev4 cfg4).headI] from rfl]
    exact List.mem_singleton_self _
  exact (empty_subset_row_defaults.2 ev4 cfg4 _ hmem).1.mpr (by decide)

/-- The spec's "last non-null observed value within the working subset" for
a point-in-time categorical column. -/
def lastNonNullValue (f : Event → Option String) (w : List Event) : Option String :=
  (w.filterMap f).getLast?

/-- Gender sequence M, F, M for one non-churned user in one session. -/
def e5a : Event :=
  { userId := "u1", ts := 0, page := "NextSong", sessionId := 1, itemInSession := 0,
    gender := some "M" }

/-- Second event of the gender sequence: F. -/
def e5b : Event :=
  { userId := "u1", ts := 1, page := "NextSong", sessionId := 1, itemInSession := 1,
    gender := some "F" }

/-- Third event of the gender sequence: M again. -/
def e5c : Event :=
  { userId := "u1", ts := 2, page := "NextSong", sessionId := 1, itemInSession := 2,
    gender := some "M" }

/-- The gender-sequence log M, F, M. -/
def ev5 : List Event := [e5a, e5b, e5c]

/-- A permissive configuration with gender and level columns enabled. -/
def cfg5 : FeatureConfig :=
  { lookback_days := 0, min_events_per_user := 1, min_sessions_per_user := 1,
    include_gender := true, include_level := true, include_location := false }

/-- C5 counterexample: for the gender sequence M, F, M the last non-null
observed gender is M, yet the code one-hot encodes from
`dropna().unique()[-1]` — the distinct values in order of first appearance
— so the single output row has `gender_M = 0` and `gender_F = 1`,
contradicting the claimed last-observed-value semantics. -/
theorem gender_last_value_counterexample :
    (buildUserFeatures ev5 cfg5).map (fun s => (s.gender_M, s.gender_F)) =
      [(some 0, some 1)] ∧
    lastNonNullValue Event.gender (workingSubset cfg5 (userEventsSorted ev5 "u1")) =
      some "M" := by
  constructor
  · rfl
  · decide

/-- C5 amended: the gender one-hot fields follow the last element of the
first-appearance-ordered distinct non-null gender values of the working
subset (`Series.unique()[-1]`), while `current_level_paid` does follow the
last non-null observed level value, for every input and configuration with
the respective flag set. -/
theorem point_in_time_categoricals (evs : List Event) (cfg : FeatureConfig)
    (snap : Snapshot) (hmem : snap ∈ buildUserFeatures evs cfg) :
    (cfg.include_gender = true →
      snap.gender_M = some (if lastUniqueGender
          (workingSubset cfg (userEventsSorted evs snap.userId)) = some "M" then 1 else 0) ∧
      snap.gender_F = some (if lastUniqueGender
          (workingSubset cfg (userEventsSorted evs snap.userId)) = some "F" then 1 else 0)) ∧
    (cfg.include_level = true →
      snap.current_level_paid = some (if lastNonNullValue Event.level
          (workingSubset cfg (userEventsSorted evs snap.userId)) = some "paid"
        then 1 else 0)) := by
  obtain ⟨uid, -, huid, hsnap, -, -⟩ := mem_build_inv hmem
  rw [huid, hsnap]
  constructor
  · intro hg
    constructor <;> simp [mkSnapshot, hg]
  · intro hl
    have : lastNonNullValue Event.level
        (workingSubset cfg (userEventsSorted evs uid)) =
        lastObservedLevel (workingSubset cfg (userEventsSorted evs uid)) := rfl
    rw [this]
    simp [mkSnapshot, hl]

/-- C5 amended witness: on the gender sequence M, F, M the single row's
`gender_M` is `0` (the last newly-seen distinct gender is F) and, with no
level values observed, `current_level_paid` is `0`. -/
theorem point_in_time_categoricals_witness :
    ((buildUserFeatures ev5 cfg5).headI).gender_M = some 0 ∧
    ((buildUserFeatures ev5 cfg5).headI).current_level_paid = some 0 := by
  have hmem : (buildUserFeatures ev5 cfg5).headI ∈ buildUserFeatures ev5 cfg5 := by
    rw [show buildUserFeatures ev5 cfg5 = [(buildUserFeatures ev5 cfg5).headI] from rfl]
    exact List.mem_singleton_self _
  have h := point_in_time_categoricals ev5 cfg5 _ hmem
  refine ⟨?_, ?_⟩
  · rw [(h.1 rfl).1]
    decide
  · rw [h.2 rfl]
    decide

/-! Split completeness and fallback (`trainer.py`). -/

/-- One stratum's two parts together are a permutation of the stratum. -/
lemma splitStratum_perm (rows : List Snapshot) (ratio : ℚ) (seed : Nat) :
    ((splitStratum rows ratio seed).1 ++ (splitStratum rows ratio seed).2).Perm rows := by
  unfold splitStratum
  refine List.perm_append_comm.trans ?_
  rw [List.take_append_drop]
  exact List.rotate_perm rows seed

/-- The stratified split's parts together are a permutation of the input. -/
lemma stratified_perm (rows : List Snapshot) (ratio : ℚ) (seed : Nat) :
    ((_stratified_split rows ratio seed).1 ++ (_stratified_split rows ratio seed).2).Perm
      rows := by
  simp only [_stratified_split]
  have h0 := splitStratum_perm (rows.filter (fun r => !decide (r.churned = 1))) ratio seed
  have h1 := splitStratum_perm (rows.filter (fun r => decide (r.churned = 1))) ratio seed
  set dA := (splitStratum (rows.filter (fun r => !decide (r.churned = 1))) ratio seed).1
  set tA := (splitStratum (rows.filter (fun r => !decide (r.churned = 1))) ratio seed).2
  set dB := (splitStratum (rows.filter (fun r => decide (r.churned = 1))) ratio seed).1
  set tB := (splitStratum (rows.filter (fun r => decide (r.churned = 1))) ratio seed).2
  have hsh : ((dA ++ dB) ++ (tA ++ tB)).Perm ((dA ++ tA) ++ (dB ++ tB)) := by
    rw [List.append_assoc, List.append_assoc]
    exact List.Perm.append_left dA (List.perm_append_comm_assoc dB tA tB)
  refine hsh.trans ((h0.append h1).trans ?_)
  refine List.perm_append_comm.trans ?_
  exact List.filter_append_perm (fun r => decide (r.churned = 1)) rows

/-- The temporal split's parts together are a permutation of the input, in
the fallback branch as well. -/
lemma temporal_perm (rows : List Snapshot) (cfg : SplitConfig) (seed : Nat) :
    ((_temporal_split rows cfg seed).1 ++ (_temporal_split rows cfg seed).2).Perm rows := by
  simp only [_temporal_split]
  split_ifs with hc
  · exact stratified_perm rows cfg.test_ratio seed
  · have hfc : rows.filter
        (fun r => decide (maxLabelTs rows - (cfg.temporal_holdout_days : Int) * msPerDay ≤
          r.label_ts)) =
        rows.filter (fun r => !decide (r.label_ts <
          maxLabelTs rows - (cfg.temporal_holdout_days : Int) * msPerDay)) := by
      apply List.filter_congr
      intro x _
      rw [← decide_not]
      exact decide_eq_decide.2 not_lt.symm
    rw [hfc]
    exact List.filter_append_perm _ rows

/-- The properties the completeness claim derives from the permutation:
length additivity, column retention (every output row is an input row, with
all its fields), and — under the unique-user-id table invariant —
disjointness. -/
lemma perm_split_props {p : List Snapshot × List Snapshot} {rows : List Snapshot}
    (h : (p.1 ++ p.2).Perm rows) :
    p.1.length + p.2.length = rows.length ∧ (∀ s ∈ p.1, s ∈ rows) ∧
    (∀ s ∈ p.2, s ∈ rows) ∧
    ((rows.map Snapshot.userId).Nodup → p.1.Disjoint p.2) := by
  refine ⟨?_, ?_, ?_, ?_⟩
  · simpa [List.length_append] using h.length_eq
  · intro s hs
    exact h.mem_iff.1 (List.mem_append.2 (Or.inl hs))
  · intro s hs
    exact h.mem_iff.1 (List.mem_append.2 (Or.inr hs))
  · intro hnd
    have hrn : rows.Nodup := List.Nodup.of_map _ hnd
    exact List.disjoint_of_nodup_append (h.nodup_iff.2 hrn)

/-- C6. Split completeness: for every feature table and configuration, both
the temporal split (fallback path included) and the stratified split return
parts whose concatenation is a permutation of the input — so their lengths
add up to the input length and every output row is an input row with the
full column set, `churned` and `label_ts` included — and, whenever the
table's user ids are distinct, the two parts are disjoint. -/
theorem split_completeness (rows : List Snapshot) (cfg : SplitConfig) (seed : Nat) :
    (((_temporal_split rows cfg seed).1 ++ (_temporal_split rows cfg seed).2).Perm rows ∧
      (_temporal_split rows cfg seed).1.length +
        (_temporal_split rows cfg seed).2.length = rows.length ∧
      (∀ s ∈ (_temporal_split rows cfg seed).1, s ∈ rows) ∧
      (∀ s ∈ (_temporal_split rows cfg seed).2, s ∈ rows) ∧
      ((rows.map Snapshot.userId).Nodup →
        (_temporal_split rows cfg seed).1.Disjoint (_temporal_split rows cfg seed).2)) ∧
    (((_stratified_split rows cfg.test_ratio seed).1 ++
        (_stratified_split rows cfg.test_ratio seed).2).Perm rows ∧
      (_stratified_split rows cfg.test_ratio seed).1.length +
        (_stratified_split rows cfg.test_ratio seed).2.length = rows.length ∧
      (∀ s ∈ (_stratified_split rows cfg.test_ratio seed).1, s ∈ rows) ∧
      (∀ s ∈ (_stratified_split rows cfg.test_ratio seed).2, s ∈ rows) ∧
      ((rows.map Snapshot.userId).Nodup →
        (_stratified_split rows cfg.test_ratio seed).1.Disjoint
          (_stratified_split rows cfg.test_ratio seed).2)) := by
  have ht := temporal_perm rows cfg seed
  have hs := stratified_perm rows cfg.test_ratio seed
  exact ⟨⟨ht, perm_split_props ht⟩, ⟨hs, perm_split_props hs⟩⟩

/-- A hand-made feature row for split witnesses. -/
noncomputable def rowA : Snapshot :=
  { (default : Snapshot) with userId := "a", label_ts := 0, churned := 0 }

/-- A second hand-made feature row, churned, thirty days later. -/
noncomputable def rowB : Snapshot :=
  { (default : Snapshot) with userId := "b", label_ts := 2592000000, churned := 1 }

/-- A two-row feature table with distinct user ids. -/
noncomputable def rowsW : List Snapshot := [rowA, rowB]

/-- A split configuration satisfiable by the two-row table. -/
def cfgW : SplitConfig := { test_ratio := 1 / 5, min_train_users := 1, temporal_holdout_days := 14 }

/-- C6 witness: on the two-row table the temporal split's part lengths add
to two and the parts are disjoint. -/
theorem split_completeness_witness :
    (_temporal_split rowsW cfgW 0).1.length + (_temporal_split rowsW cfgW 0).2.length =
      rowsW.length ∧
    (_temporal_split rowsW cfgW 0).1.Disjoint (_temporal_split rowsW cfgW 0).2 :=
  ⟨(split_completeness rowsW cfgW 0).1.2.1,
    (split_completeness rowsW cfgW 0).1.2.2.2.2 (by decide)⟩

/-- C7. Temporal-split fallback: with the cutoff at
`max(label_ts) - temporal_holdout_days`, the rows are partitioned into
`label_ts < cutoff` versus `cutoff ≤ label_ts`; exactly when the train part
is smaller than `min_train_users` or the test part is empty, the temporal
partition is discarded in favour of the seeded stratified split (a total
function — no error is raised), and otherwise the temporal partition
itself is returned. -/
theorem temporal_split_fallback (rows : List Snapshot) (cfg : SplitConfig) (seed : Nat) :
    (((rows.filter (fun r => decide (r.label_ts <
          maxLabelTs rows - (cfg.temporal_holdout_days : Int) * msPerDay))).length <
        cfg.min_train_users ∨
      (rows.filter (fun r => decide (maxLabelTs rows -
          (cfg.temporal_holdout_days : Int) * msPerDay ≤ r.label_ts))).length = 0) →
      _temporal_split rows cfg seed = _stratified_split rows cfg.test_ratio seed) ∧
    (¬((rows.filter (fun r => decide (r.label_ts <
          maxLabelTs rows - (cfg.temporal_holdout_days : Int) * msPerDay))).length <
        cfg.min_train_users ∨
      (rows.filter (fun r => decide (maxLabelTs rows -
          (cfg.temporal_holdout_days : Int) * msPerDay ≤ r.label_ts))).length = 0) →
      _temporal_split rows cfg seed =
        (rows.filter (fun r => decide (r.label_ts <
            maxLabelTs rows - (cfg.temporal_holdout_days : Int) * msPerDay)),
          rows.filter (fun r => decide (maxLabelTs rows -
            (cfg.temporal_holdout_days : Int) * msPerDay ≤ r.label_ts)))) := by
  constructor
  · intro h
    simp only [_temporal_split]
    rw [if_pos h]
  · intro h
    simp only [_temporal_split]
    rw [if_neg h]

/-- A split configuration whose train minimum the two-row table misses. -/
def cfgW2 : SplitConfig := { test_ratio := 1 / 5, min_train_users := 2, temporal_holdout_days := 14 }

/-- C7 witness: on the two-row table with `min_train_users = 2` the
temporal partition (one train row) is discarded for the stratified split. -/
theorem temporal_split_fallback_witness :
    _temporal_split rowsW cfgW2 0 = _stratified_split rowsW cfgW2.test_ratio 0 :=
  (temporal_split_fallback rowsW cfgW2 0).1 (Or.inl (by decide))

/-! Drift statistics (`monitoring.py`). -/

/-- C8. PSI self-comparison is zero: on any distribution that is nonempty
after dropping missing values, `population_stability_index(X, X)` with the
default ten buckets and epsilon `1e-6` is exactly `0.0` — each bin
contributes `(r - r) * log(r / r) = 0` since both sides share counts, and a
constant distribution takes the degenerate-bins branch, which is `0.0` as
well. -/
theorem psi_self_comparison_zero (X : List (Option ℚ)) (h : X.filterMap id ≠ []) :
    population_stability_index X X 10 (1 / 1000000) = some 0 := by
  simp only [population_stability_index]
  rw [if_neg (by simp [h])]
  split_ifs with hb
  · rfl
  · refine congrArg some (List.sum_eq_zero ?_)
    intro x hx
    obtain ⟨b, -, rfl⟩ := List.mem_map.1 hx
    simp only [sub_self, Rat.cast_zero, zero_mul]

/-- C8 witness: the singleton distribution compared with itself. -/
theorem psi_self_comparison_zero_witness :
    population_stability_index [some 1] [some 1] 10 (1 / 1000000) = some 0 :=
  psi_self_comparison_zero [some 1] (by decide)

/-- Lookup of a produced delta: with distinct baseline keys, a baseline
metric shared with the current mapping gets exactly the relative delta —
the `NaN` sentinel when its baseline value is zero. -/
lemma lookup_performance_deltas (current : List (String × ℚ)) (th : ℚ) :
    ∀ baseline : List (String × ℚ), (baseline.map Prod.fst).Nodup →
      ∀ (k : String) (b c : ℚ), (k, b) ∈ baseline → current.lookup k = some c →
        (performance_drift baseline current th).1.lookup k =
          some (if b = 0 then none else some ((c - b) / |b|)) := by
  intro baseline
  induction baseline with
  | nil =>
    intro _ k b c hmem _
    exact absurd hmem (List.not_mem_nil _)
  | cons p rest ih =>
    intro hnd k b c hmem hcur
    obtain ⟨k₀, b₀⟩ := p
    simp only [performance_drift] at ih ⊢
    rw [List.filterMap_cons]
    rcases List.mem_cons.1 hmem with heq | hmem'
    · cases heq
      rw [hcur]
      simp [List.lookup]
    · have hk : k ≠ k₀ := by
        rintro rfl
        simp only [List.map_cons, List.nodup_cons] at hnd
        exact hnd.1 (List.mem_map.2 ⟨(k, b), hmem', rfl⟩)
      have hnd' : (rest.map Prod.fst).Nodup := by
        simp only [List.map_cons, List.nodup_cons] at hnd
        exact hnd.2
      cases hcur₀ : current.lookup k₀ with
      | none =>
        simp only [hcur₀]
        exact ih hnd' k b c hmem' hcur
      | some c₀ =>
        simp only [hcur₀]
        have hbeq : (k == k₀) = false := beq_eq_false_iff_ne.mpr hk
        simp only [List.lookup, hbeq]
        exact ih hnd' k b c hmem' hcur

/-- C9. `performance_drift` contract: with distinct baseline keys every
shared metric's delta is `(current - baseline)/abs(baseline)` — the `NaN`
sentinel for a zero baseline — `needs_retrain` is true exactly when some
defined delta lies strictly below the negated absolute threshold (so `NaN`
deltas are excluded from the decision), and on the spec's scenario
(`f1: 0.80 → 0.65`, threshold `0.1`) the delta is `-3/16 = -0.1875` with
`needs_retrain = true`. -/
theorem performance_drift_contract :
    (∀ (baseline current : List (String × ℚ)) (th : ℚ),
      ((baseline.map Prod.fst).Nodup →
        ∀ (k : String) (b c : ℚ), (k, b) ∈ baseline → current.lookup k = some c →
          (performance_drift baseline current th).1.lookup k =
            some (if b = 0 then none else some ((c - b) / |b|))) ∧
      ((performance_drift baseline current th).2 = true ↔
        ∃ (k : String) (v : ℚ), (k, some v) ∈ (performance_drift baseline current th).1 ∧
          v < -|th|)) ∧
    performance_drift [("f1", 4 / 5)] [("f1", 13 / 20)] (1 / 10) =
      ([("f1", some (-(3 / 16)))], true) := by
  constructor
  · intro baseline current th
    constructor
    · intro hnd k b c hmem hcur
      exact lookup_performance_deltas current th baseline hnd k b c hmem hcur
    · rw [show (performance_drift baseline current th).2 =
        (performance_drift baseline current th).1.any (fun d =>
          match d.2 with
          | none => false
          | some v => decide (v < -|th|)) from rfl]
      rw [List.any_eq_true]
      constructor
      · rintro ⟨⟨k, ov⟩, hd, hg⟩
        cases ov with
        | none => simp at hg
        | some v => exact ⟨k, v, hd, by simpa using hg⟩
      · rintro ⟨k, v, hmem, hlt⟩
        exact ⟨(k, some v), hmem, by simpa using hlt⟩
  · simp only [performance_drift, List.filterMap_cons, List.lookup, List.filterMap_nil]
    rw [show |(4 / 5 : ℚ)| = 4 / 5 from abs_of_pos (by norm_num),
      show |(1 / 10 : ℚ)| = 1 / 10 from abs_of_pos (by norm_num)]
    norm_num

/-- C9 witness: the scenario metric's delta is looked up through the
contract and the retrain flag is derived from the defined delta. -/
theorem performance_drift_contract_witness :
    (performance_drift [("f1", 4 / 5)] [("f1", 13 / 20)] (1 / 10)).1.lookup "f1" =
      some (if (4 / 5 : ℚ) = 0 then none else some ((13 / 20 - 4 / 5 : ℚ) / |(4 / 5 : ℚ)|)) ∧
    (performance_drift [("f1", 4 / 5)] [("f1", 13 / 20)] (1 / 10)).2 = true :=
  ⟨(performance_drift_contract.1 [("f1", 4 / 5)] [("f1", 13 / 20)] (1 / 10)).1
      (by simp) "f1" (4 / 5) (13 / 20) (by simp) (by simp [List.lookup]),
    (performance_drift_contract.1 [("f1", 4 / 5)] [("f1", 13 / 20)] (1 / 10)).2.mpr
      ⟨"f1", -(3 / 16), by
        simp only [performance_drift, List.filterMap_cons, List.lookup, List.filterMap_nil]
        rw [show |(4 / 5 : ℚ)| = 4 / 5 from abs_of_pos (by norm_num)]
        norm_num, by
        rw [show |(1 / 10 : ℚ)| = 1 / 10 from abs_of_pos (by norm_num)]
        norm_num⟩⟩

/-- When every selected column is absent from the current table, the column
loop skips them all and produces no record. -/
lemma driftLoop_all_skipped (baseline current : List Column) (psi_th : ℝ) (ks_th : ℚ) :
    ∀ cols : List String, (∀ c ∈ cols, colLookup current c = none) →
      driftLoop baseline current psi_th ks_th cols = .ok ([], false, false) := by
  intro cols
  induction cols with
  | nil => intro _; rfl
  | cons c rest ih =>
    intro h
    have hc : colLookup current c = none := h c (List.mem_cons_self _ _)
    simp only [driftLoop, hc]
    exact ih (fun x hx => h x (List.mem_cons_of_mem _ hx))

/-- C10. `compute_data_drift_report` fails instead of degrading gracefully
when no per-column record is produced: with `feature_columns` omitted and
no numeric baseline column, or with selected columns none of which exists
in the current table, sorting the empty records table by the absent `psi`
column raises (`KeyError`), modelled by the `.error` result. -/
theorem drift_report_errors_when_empty (baseline current : List Column)
    (psi_th : ℝ) (ks_th : ℚ) :
    (baseline.filter Column.numeric = [] →
      compute_data_drift_report baseline current none psi_th ks_th =
        Except.error "KeyError: psi") ∧
    (∀ cols : List String, (∀ c ∈ cols, colLookup current c = none) →
      compute_data_drift_report baseline current (some cols) psi_th ks_th =
        Except.error "KeyError: psi") := by
  constructor
  · intro h
    simp only [compute_data_drift_report, h]
    rw [List.map_nil]
    rfl
  · intro cols h
    simp only [compute_data_drift_report]
    rw [driftLoop_all_skipped baseline current psi_th ks_th cols h]
    rfl

/-- A non-numeric baseline column for the drift-report witness. -/
def colText : Column := { name := "userId", numeric := false, values := [] }

/-- C10 witness: a baseline with only a non-numeric column and an empty
current table makes the report computation raise. -/
theorem drift_report_errors_when_empty_witness :
    compute_data_drift_report [colText] [] none 0 0 = Except.error "KeyError: psi" :=
  (drift_report_errors_when_empty [colText] [] 0 0).1 rfl

end ChurnPipeline
